import Mathlib

/-!
Verification of the subscription-service core (domain layer in
`internal/service/subscription.go`, storage adapter in
`internal/repository/subscription_pg.go`) against its specification.

Modelling conventions:
* Instants (`time.Time`, always UTC in this program) are embedded as `Int`,
  measured in seconds since Go's zero time (January 1, year 1, UTC), so the
  Go zero value `time.Time{}` is `0` and `t.IsZero()` is `t = 0`.
  `t.Before u` is `t < u`, `t.After u` is `u < t`, and
  `t.AddDate(0, 0, n)` on a UTC instant is `t + n * 86400`.
* The relational table is a `List Subscription` in storage order; an SQL
  `INSERT` appends, `UPDATE ... WHERE id=$7` rewrites every matching row's
  SET columns, `DELETE` drops the matching rows, and single-row `SELECT`
  reads the first matching row.  `end_date` is a nullable column
  (`sql.NullTime` in the scans), hence `Option Int`; an SQL comparison
  against a NULL `end_date` is not satisfied.
* Infrastructure failures of the database driver are injected through an
  explicit `Option String` fault argument: `some msg` means the exec/query
  call returned the error `msg`, `none` means it reached the table.
* Fallible operations return `Except Err α` where `Err` distinguishes the
  two domain error kinds (`service.ErrInvalid`, `repository.ErrNotFound`)
  from a propagated infrastructure error.
-/

/-- Errors crossing the layer boundaries: `invalid` is `service.ErrInvalid`,
`notFound` is `repository.ErrNotFound`, and `db msg` is any other error
propagated unchanged from the database driver. -/
inductive Err where
  | invalid
  | notFound
  | db (msg : String)
deriving DecidableEq, Repr

deriving instance DecidableEq for Except

/-- Embedding of `model.Subscription` as it is constructed and consumed in
`internal/service/subscription.go` and scanned in
`internal/repository/subscription_pg.go`: `ID`, `ServiceName`, `Price`,
`UserID`, `StartDate`, nullable `EndDate`, `CreatedAt`, `UpdatedAt`. -/
structure Subscription where
  id : String
  serviceName : String
  price : Int
  userID : String
  startDate : Int
  endDate : Option Int
  createdAt : Int
  updatedAt : Int
deriving DecidableEq, Repr

/-- Embedding of `time.Time.AddDate(0, 0, n)` on a UTC instant. -/
def addDays (n : Int) (t : Int) : Int := t + n * 86400

/-- Decides whether a character is a hexadecimal digit, as `xtob` in
`github.com/google/uuid` accepts it. -/
def xIsHex (c : Char) : Bool :=
  (('0' ≤ c) && (c ≤ '9')) || (('a' ≤ c) && (c ≤ 'f')) || (('A' ≤ c) && (c ≤ 'F'))

/-- Checks a 36-character canonical UUID body the way
`github.com/google/uuid.Parse` does: a dash at offsets 8, 13, 18, 23 and a
hexadecimal digit everywhere else. -/
def canonical36Ok (cs : List Char) : Bool :=
  cs.length == 36 &&
  (List.range 36).all (fun i =>
    if i == 8 || i == 13 || i == 18 || i == 23 then cs.getD i ' ' == '-'
    else xIsHex (cs.getD i ' '))

/-- Embedding of the accept/reject behaviour of
`github.com/google/uuid.Parse` (an external dependency of the domain
layer): a 36-character canonical form, a `urn:uuid:`-prefixed form
(case-insensitive prefix), a 38-character form whose first character is
skipped, or a 32-character dashless hexadecimal form. -/
def uuidParseOk (s : String) : Bool :=
  let cs := s.toList
  if cs.length == 36 then canonical36Ok cs
  else if cs.length == 45 then
    ((cs.take 9).map Char.toLower == "urn:uuid:".toList) && canonical36Ok (cs.drop 9)
  else if cs.length == 38 then canonical36Ok ((cs.drop 1).take 36)
  else if cs.length == 32 then cs.all xIsHex
  else false

/-- Embedding of the optional equality predicates
`($n IS NULL OR column = $n)` used by `List` and `TotalCostForPeriod`. -/
def matchFilter (v : String) (f : Option String) : Bool :=
  match f with
  | none => true
  | some x => v == x

/-- Embedding of `repository.ListFilter`. -/
structure ListFilter where
  userID : Option String
  serviceName : Option String
  limit : Int
  offset : Int
deriving DecidableEq, Repr

/-- Embedding of `pgRepo.Create`: `INSERT` appends a row (a driver failure
is propagated unchanged). -/
def repoCreate (fault : Option String) (tbl : List Subscription) (s : Subscription) :
    Except Err (List Subscription) :=
  match fault with
  | some e => .error (.db e)
  | none => .ok (tbl ++ [s])

/-- Embedding of `pgRepo.GetByID`: the single-row `SELECT ... WHERE id = $1`
reads the first matching row; `sql.ErrNoRows` is mapped to
`repository.ErrNotFound`, any other scan error is propagated unchanged. -/
def repoGetByID (fault : Option String) (tbl : List Subscription) (id : String) :
    Except Err Subscription :=
  match fault with
  | some e => .error (.db e)
  | none =>
    match tbl.find? (fun r => r.id == id) with
    | some r => .ok r
    | none => .error .notFound

/-- Embedding of the row rewrite performed by the SQL statement
`UPDATE subscriptions SET service_name=$1, price=$2, user_id=$3,
start_date=$4, end_date=$5, updated_at=$6 WHERE id=$7`: the SET columns are
taken from the argument record, `id` and `created_at` stay those of the
stored row. -/
def applyRowUpdate (s : Subscription) (r : Subscription) : Subscription :=
  { r with
    serviceName := s.serviceName
    price := s.price
    userID := s.userID
    startDate := s.startDate
    endDate := s.endDate
    updatedAt := s.updatedAt }

/-- Embedding of `pgRepo.Update`: a driver failure is propagated unchanged;
otherwise the rows-affected count of the `UPDATE` is inspected and a
zero-row effect becomes `repository.ErrNotFound`. -/
def repoUpdate (fault : Option String) (tbl : List Subscription) (s : Subscription) :
    Except Err (List Subscription) :=
  match fault with
  | some e => .error (.db e)
  | none =>
    if tbl.countP (fun r => r.id == s.id) = 0 then .error .notFound
    else .ok (tbl.map (fun r => if r.id == s.id then applyRowUpdate s r else r))

/-- Embedding of `pgRepo.Delete`: a driver failure is propagated unchanged;
otherwise the rows-affected count of the `DELETE` is inspected and a
zero-row effect becomes `repository.ErrNotFound`. -/
def repoDelete (fault : Option String) (tbl : List Subscription) (id : String) :
    Except Err (List Subscription) :=
  match fault with
  | some e => .error (.db e)
  | none =>
    if tbl.countP (fun r => r.id == id) = 0 then .error .notFound
    else .ok (tbl.filter (fun r => !(r.id == id)))

/-- Embedding of the `WHERE` clause of `pgRepo.List`:
`($1 IS NULL OR user_id = $1) AND ($2 IS NULL OR service_name = $2)`. -/
def listCond (f : ListFilter) (r : Subscription) : Bool :=
  matchFilter r.userID f.userID && matchFilter r.serviceName f.serviceName

/-- Embedding of `pgRepo.List`: filters, orders by `created_at` descending,
then applies `OFFSET $4` and `LIMIT $3` verbatim.  A negative limit or
offset is rejected by the database engine and surfaces as a driver
error. -/
def repoList (fault : Option String) (tbl : List Subscription) (f : ListFilter) :
    Except Err (List Subscription) :=
  match fault with
  | some e => .error (.db e)
  | none =>
    if f.limit < 0 || f.offset < 0 then .error (.db "LIMIT must not be negative")
    else
      .ok ((((tbl.filter (listCond f)).mergeSort
        (fun a b => decide (b.createdAt ≤ a.createdAt))).drop f.offset.toNat).take f.limit.toNat)

/-- Embedding of the `WHERE` clause of `pgRepo.TotalCostForPeriod`, with the
positional SQL parameters kept positional: `start_date <= $1 AND
end_date >= $2 AND ($3 IS NULL OR user_id = $3) AND ($4 IS NULL OR
service_name = $4)`.  A NULL `end_date` never satisfies `end_date >= $2`. -/
def sqlPeriodCond (p1 p2 : Int) (p3 p4 : Option String) (r : Subscription) : Bool :=
  decide (r.startDate ≤ p1) &&
  (match r.endDate with
   | some e => decide (p2 ≤ e)
   | none => false) &&
  matchFilter r.userID p3 && matchFilter r.serviceName p4

/-- Embedding of `pgRepo.TotalCostForPeriod`: `SELECT COALESCE(SUM(price),0)`
over the rows matched by `sqlPeriodCond`; the caller binds `$1 := to`,
`$2 := from`. -/
def repoTotalCostForPeriod (fault : Option String) (tbl : List Subscription)
    (p1 p2 : Int) (p3 p4 : Option String) : Except Err Int :=
  match fault with
  | some e => .error (.db e)
  | none => .ok (((tbl.filter (sqlPeriodCond p1 p2 p3 p4)).map (fun r => r.price)).sum)

/-- Embedding of `service.CreateInput`. -/
structure CreateInput where
  serviceName : String
  price : Int
  userID : String
  startDate : Int
  endDate : Option Int
deriving DecidableEq, Repr

/-- Embedding of `service.UpdateInput` (same fields as `CreateInput`, as in
the source). -/
structure UpdateInput where
  serviceName : String
  price : Int
  userID : String
  startDate : Int
  endDate : Option Int
deriving DecidableEq, Repr

/-- Embedding of `serviceImpl.CreateSubscription`.  `now` stands for the
`time.Now().UTC()` observed by the call and `newID` for the generated
`uuid.New().String()`.  Mirrors the source order: name/price check, UUID
check, end-date defaulting or ordering check against the input start date,
record construction, the `StartDate.IsZero()` fallback to `now`, then
`repo.Create`.  Returns the record handed back to the caller together with
the table after the insert. -/
def CreateSubscription (now : Int) (newID : String) (fault : Option String)
    (tbl : List Subscription) (inp : CreateInput) :
    Except Err (Subscription × List Subscription) :=
  if inp.serviceName == "" || decide (inp.price < 0) then .error .invalid
  else if !uuidParseOk inp.userID then .error .invalid
  else
    let start := inp.startDate
    match (match inp.endDate with
           | some e => if decide (e < start) then none else some e
           | none => some (addDays 30 start)) with
    | none => .error .invalid
    | some endD =>
      let sub : Subscription :=
        { id := newID
          serviceName := inp.serviceName
          price := inp.price
          userID := inp.userID
          startDate := start
          endDate := some endD
          createdAt := now
          updatedAt := now }
      let sub := if sub.startDate = 0 then { sub with startDate := now } else sub
      match repoCreate fault tbl sub with
      | .error e => .error e
      | .ok tbl2 => .ok (sub, tbl2)

/-- Embedding of `serviceImpl.GetByID`: a passthrough to the repository. -/
def GetByID (fault : Option String) (tbl : List Subscription) (id : String) :
    Except Err Subscription :=
  repoGetByID fault tbl id

/-- Embedding of the field assignments of `serviceImpl.UpdateSubscription`:
every mutable field of the loaded record is overwritten from the input, the
end date is defaulted to `StartDate.AddDate(0, 0, 30)` when omitted, and
`UpdatedAt` is set to the `time.Now().UTC()` of the call. -/
def applyUpdate (inp : UpdateInput) (now : Int) (existing : Subscription) : Subscription :=
  { existing with
    serviceName := inp.serviceName
    price := inp.price
    userID := inp.userID
    startDate := inp.startDate
    endDate := match inp.endDate with
               | none => some (addDays 30 inp.startDate)
               | some e => some e
    updatedAt := now }

/-- Embedding of `serviceImpl.UpdateSubscription`: loads the existing record
(propagating the repository error, `notFound` included), rejects an input
whose supplied end date is before its start date (`in.EndDate != nil &&
in.EndDate.Before(in.StartDate)`), overwrites the mutable fields, and
persists through `repo.Update`.  `gFault` and `uFault` inject driver
failures into the read and the write respectively. -/
def UpdateSubscription (now : Int) (gFault uFault : Option String)
    (tbl : List Subscription) (id : String) (inp : UpdateInput) :
    Except Err (Subscription × List Subscription) :=
  match repoGetByID gFault tbl id with
  | .error e => .error e
  | .ok existing =>
    if (match inp.endDate with
        | some e => decide (e < inp.startDate)
        | none => false) then .error .invalid
    else
      let updated := applyUpdate inp now existing
      match repoUpdate uFault tbl updated with
      | .error e => .error e
      | .ok tbl2 => .ok (updated, tbl2)

/-- Embedding of `serviceImpl.DeleteSubscription`: a passthrough to the
repository. -/
def DeleteSubscription (fault : Option String) (tbl : List Subscription) (id : String) :
    Except Err (List Subscription) :=
  repoDelete fault tbl id

/-- Embedding of `serviceImpl.ListSubscriptions`: a passthrough to the
repository. -/
def ListSubscriptions (fault : Option String) (tbl : List Subscription) (f : ListFilter) :
    Except Err (List Subscription) :=
  repoList fault tbl f

/-- Embedding of `serviceImpl.SumForPeriod`: rejects `to.Before(from)` with
`service.ErrInvalid`, otherwise delegates to
`repo.TotalCostForPeriod(ctx, from, to, ...)`, which binds the SQL
parameters as `$1 := to`, `$2 := from`, `$3 := userID`,
`$4 := serviceName`. -/
def SumForPeriod (fault : Option String) (tbl : List Subscription)
    (fromT toT : Int) (uid sname : Option String) : Except Err Int :=
  if decide (toT < fromT) then .error .invalid
  else repoTotalCostForPeriod fault tbl toT fromT uid sname

/-- Predicate written from the specification's words for `SumForPeriod`:
a stored subscription is counted when `subscription.start_date <= to` and
`subscription.end_date >= from` (inclusive interval overlap, not
containment), further restricted by the optional exact-match user and
service-name filters combined with AND. -/
def specCounted (fromT toT : Int) (uid sname : Option String) (r : Subscription) : Bool :=
  decide (r.startDate ≤ toT) &&
  (match r.endDate with
   | some e => decide (fromT ≤ e)
   | none => false) &&
  matchFilter r.userID uid && matchFilter r.serviceName sname

/-- Sum written from the specification's words: the sum of `price` over
exactly the stored subscriptions counted by `specCounted`. -/
def specOverlapSum (tbl : List Subscription) (fromT toT : Int)
    (uid sname : Option String) : Int :=
  ((tbl.filter (specCounted fromT toT uid sname)).map (fun r => r.price)).sum

/-- A syntactically valid canonical UUID used as a concrete `user_id`. -/
def validUuid : String := "123e4567-e89b-12d3-a456-426614174000"

/-- A concrete `time.Now().UTC()` instant (seconds since year 1, far from
the zero value, as any real clock reading is). -/
def tNow : Int := 63800000000

/-- A create input that passes every validation check, supplies no end
date, and carries the zero start date (`time.Time{}`). -/
def zeroStartNoEnd : CreateInput :=
  { serviceName := "Netflix", price := 499, userID := validUuid,
    startDate := 0, endDate := none }

/-- The record `CreateSubscription tNow "id-1" none [] zeroStartNoEnd`
stores: the start date was defaulted to `tNow` after the end date had
already been computed from the zero start date. -/
def zeroStartStored : Subscription :=
  { id := "id-1", serviceName := "Netflix", price := 499, userID := validUuid,
    startDate := tNow, endDate := some 2592000, createdAt := tNow, updatedAt := tNow }

/-- A create input with the zero start date and an explicit end date that
is far earlier than any real clock reading. -/
def zeroStartWithEnd : CreateInput :=
  { serviceName := "Netflix", price := 100, userID := validUuid,
    startDate := 0, endDate := some 8640000 }

/-- The record stored for `zeroStartWithEnd` at instant `tNow`: its end
date precedes its start date. -/
def zeroStartWithEndStored : Subscription :=
  { id := "id-3", serviceName := "Netflix", price := 100, userID := validUuid,
    startDate := tNow, endDate := some 8640000, createdAt := tNow, updatedAt := tNow }

/-- A concrete stored subscription used as the pre-state of update, list
and sum scenarios. -/
def exRow : Subscription :=
  { id := "s1", serviceName := "Netflix", price := 499, userID := validUuid,
    startDate := 100, endDate := some 200, createdAt := 10, updatedAt := 10 }

/-- An update input violating every create-time business rule at once:
negative price, syntactically invalid UUID, empty service name. -/
def badUpd : UpdateInput :=
  { serviceName := "", price := -5, userID := "oops",
    startDate := 100, endDate := some 200 }

/-- The record `UpdateSubscription 999 none none [exRow] "s1" badUpd`
stores. -/
def badOut : Subscription := applyUpdate badUpd 999 exRow

/-- A well-formed update input with the end date omitted. -/
def frameInp : UpdateInput :=
  { serviceName := "Netflix Premium", price := 799, userID := validUuid,
    startDate := 150, endDate := none }

/-- The record `UpdateSubscription 999 none none [exRow] "s1" frameInp`
stores. -/
def frameOut : Subscription := applyUpdate frameInp 999 exRow

/-- A record whose id is `"x"`, for the zero-row repository scenarios. -/
def wRec : Subscription :=
  { id := "x", serviceName := "Spotify", price := 299, userID := validUuid,
    startDate := 0, endDate := some 31, createdAt := 1, updatedAt := 1 }

/-- A small table exercising the overlap rule: one overlapping row, one
disjoint row, one row with a NULL end date. -/
def periodTbl : List Subscription :=
  [ { id := "p1", serviceName := "A", price := 5, userID := validUuid,
      startDate := 0, endDate := some 31, createdAt := 1, updatedAt := 1 },
    { id := "p2", serviceName := "B", price := 7, userID := validUuid,
      startDate := 40, endDate := some 50, createdAt := 2, updatedAt := 2 },
    { id := "p3", serviceName := "C", price := 11, userID := validUuid,
      startDate := 0, endDate := none, createdAt := 3, updatedAt := 3 } ]

/-- An update input whose supplied end date precedes its start date. -/
def pastEndUpd : UpdateInput :=
  { serviceName := "X", price := 1, userID := validUuid,
    startDate := 100, endDate := some 50 }

/-- A create input whose service name is the empty string. -/
def emptyNameInput : CreateInput :=
  { serviceName := "", price := 10, userID := validUuid,
    startDate := 100, endDate := none }

/-- A create input whose service name is whitespace-only: empty after
trimming, but not the empty string. -/
def wsInput : CreateInput :=
  { serviceName := " ", price := 1, userID := validUuid,
    startDate := 100, endDate := none }

/-- The record `CreateSubscription 999 "id-w" none [] wsInput` stores. -/
def wsStored : Subscription :=
  { id := "id-w", serviceName := " ", price := 1, userID := validUuid,
    startDate := 100, endDate := some 2592100, createdAt := 999, updatedAt := 999 }

/-- Finding over a mapped list commutes with mapping when the map does not
change the predicate's verdict on any element. -/
theorem find?_map_of_pres {α : Type} (p : α → Bool) (f : α → α)
    (hpf : ∀ a, p (f a) = p a) (l : List α) :
    (l.map f).find? p = (l.find? p).map f := by
  induction l with
  | nil => rfl
  | cons a l ih =>
    by_cases hpa : p a = true
    · rw [List.map_cons, List.find?_cons_of_pos _ (by rw [hpf]; exact hpa),
        List.find?_cons_of_pos _ hpa]
      rfl
    · rw [List.map_cons, List.find?_cons_of_neg _ (by rw [hpf]; exact hpa),
        List.find?_cons_of_neg _ hpa, ih]

/-- An `UPDATE` through the repository never reports `service.ErrInvalid`:
its only error outcomes are a propagated driver failure or
`repository.ErrNotFound` on a zero-row effect. -/
theorem repoUpdate_ne_invalid (fault : Option String) (tbl : List Subscription)
    (s : Subscription) : repoUpdate fault tbl s ≠ .error .invalid := by
  unfold repoUpdate
  match fault with
  | some e => simp
  | none =>
    by_cases h : tbl.countP (fun r => r.id == s.id) = 0 <;> simp [h]

/-- C1: for every `SumForPeriod(from, to, userFilter, serviceFilter)` call
with `to >= from`, the result equals the sum of `price` over exactly those
stored subscriptions satisfying `start_date <= to` and `end_date >= from`
(inclusive interval overlap, not containment), further restricted by the
optional exact-match user and service-name filters combined with AND. -/
theorem sumForPeriod_eq_specOverlapSum
    (tbl : List Subscription) (fromT toT : Int) (uid sname : Option String)
    (h : fromT ≤ toT) :
    SumForPeriod none tbl fromT toT uid sname =
      .ok (specOverlapSum tbl fromT toT uid sname) := by
  unfold SumForPeriod
  rw [if_neg (by simpa using not_lt.mpr h)]
  rfl

/-- C1 witness: the overlap sum over a concrete table with an overlapping
row, a disjoint row and a NULL-end row. -/
theorem sumForPeriod_eq_specOverlapSum_witness :
    (10 : Int) ≤ 20 ∧
    SumForPeriod none periodTbl 10 20 none none =
      .ok (specOverlapSum periodTbl 10 20 none none) :=
  ⟨by decide, sumForPeriod_eq_specOverlapSum periodTbl 10 20 none none (by decide)⟩

/-- C7: `SumForPeriod` fails with `InvalidInput` when `to` is before
`from`, and returns `0` (not an error) when `to >= from` and no stored
subscription overlaps `[from, to]` under the active filters. -/
theorem sumForPeriod_range_and_empty
    (tbl : List Subscription) (fromT toT : Int) (uid sname : Option String) :
    (toT < fromT → SumForPeriod none tbl fromT toT uid sname = .error .invalid) ∧
    (fromT ≤ toT → (∀ r ∈ tbl, specCounted fromT toT uid sname r = false) →
      SumForPeriod none tbl fromT toT uid sname = .ok 0) := by
  constructor
  · intro hlt
    unfold SumForPeriod
    rw [if_pos (by simpa using hlt)]
  · intro hle hnone
    unfold SumForPeriod
    rw [if_neg (by simpa using not_lt.mpr hle)]
    unfold repoTotalCostForPeriod
    have hnil : tbl.filter (sqlPeriodCond toT fromT uid sname) = [] := by
      rw [show sqlPeriodCond toT fromT uid sname = specCounted fromT toT uid sname from rfl]
      rw [List.filter_eq_nil_iff]
      intro a ha
      simp [hnone a ha]
    simp [hnil]

/-- C7 witness: an inverted range fails `InvalidInput`; a range overlapping
no stored row sums to `0`. -/
theorem sumForPeriod_range_and_empty_witness :
    SumForPeriod none periodTbl 200 100 none none = .error .invalid ∧
    SumForPeriod none periodTbl 100 200 none none = .ok 0 :=
  ⟨(sumForPeriod_range_and_empty periodTbl 200 100 none none).1 (by decide),
   (sumForPeriod_range_and_empty periodTbl 100 200 none none).2 (by decide) (by decide)⟩

/-- C9: an update aimed at an id absent from the store fails with
`NotFound` for every input, invalid inputs included: the existence check
runs before input validation, so `NotFound` takes precedence over
`InvalidInput`. -/
theorem updateSubscription_missing_id_notFound
    (now : Int) (tbl : List Subscription) (id : String) (inp : UpdateInput)
    (habs : ∀ r ∈ tbl, r.id ≠ id) :
    UpdateSubscription now none none tbl id inp = .error .notFound := by
  have hfind : tbl.find? (fun r => r.id == id) = none := by
    rw [List.find?_eq_none]
    intro x hx
    simpa using habs x hx
  simp [UpdateSubscription, repoGetByID, hfind]

/-- C9 witness: updating a missing id with an input whose end date precedes
its start date still reports `NotFound`, not `InvalidInput`. -/
theorem updateSubscription_missing_id_notFound_witness :
    UpdateSubscription 999 none none [exRow] "zz" pastEndUpd = .error .notFound :=
  updateSubscription_missing_id_notFound 999 [exRow] "zz" pastEndUpd (by decide)

/-- C10: a `List` call whose filter carries `Limit = 0` hands that value
verbatim to the `LIMIT` clause, so the result is the empty sequence no
matter how many records match. -/
theorem repoList_zero_limit_empty
    (tbl : List Subscription) (uid sname : Option String) (off : Int) (h : 0 ≤ off) :
    repoList none tbl { userID := uid, serviceName := sname, limit := 0, offset := off } =
      .ok [] := by
  simp [repoList, not_lt.mpr h]

/-- C10 witness: with a matching row in the table, `Limit = 0` still yields
the empty list. -/
theorem repoList_zero_limit_empty_witness :
    (0 : Int) ≤ 0 ∧
    repoList none [exRow] { userID := none, serviceName := none, limit := 0, offset := 0 } =
      .ok [] :=
  ⟨by decide, repoList_zero_limit_empty [exRow] none none 0 (by decide)⟩

/-- C4: with no driver failure, `Update` and `Delete` on an id matching no
row detect the zero-row effect and fail `NotFound`, `GetByID` fails
`NotFound` exactly when zero rows match, and an injected driver failure is
propagated by all three as an error distinct from `NotFound`. -/
theorem repo_zero_rows_notFound_io_distinct
    (tbl : List Subscription) (id : String) (s : Subscription) (e : String)
    (hs : s.id = id) :
    ((∀ r ∈ tbl, r.id ≠ id) →
      repoUpdate none tbl s = .error .notFound ∧
      repoDelete none tbl id = .error .notFound) ∧
    (repoGetByID none tbl id = .error .notFound ↔ ∀ r ∈ tbl, r.id ≠ id) ∧
    Err.db e ≠ Err.notFound ∧
    repoGetByID (some e) tbl id = .error (.db e) ∧
    repoUpdate (some e) tbl s = .error (.db e) ∧
    repoDelete (some e) tbl id = .error (.db e) := by
  subst hs
  refine ⟨?_, ⟨?_, ?_⟩, by simp, rfl, rfl, rfl⟩
  · intro habs
    have h0 : tbl.countP (fun r => r.id == s.id) = 0 := by
      rw [List.countP_eq_zero]
      intro a ha
      simpa using habs a ha
    exact ⟨by simp [repoUpdate, h0], by simp [repoDelete, h0]⟩
  · intro hnf r hr
    cases hfind : tbl.find? (fun x => x.id == s.id) with
    | some a => simp [repoGetByID, hfind] at hnf
    | none =>
      have := List.find?_eq_none.mp hfind r hr
      simpa using this
  · intro habs
    have hfind : tbl.find? (fun x => x.id == s.id) = none := by
      rw [List.find?_eq_none]
      intro x hx
      simpa using habs x hx
    simp [repoGetByID, hfind]

/-- C4 witness: on the empty table, update, delete and read of id `"x"`
all fail `NotFound`, while an injected driver failure surfaces as a
distinct error. -/
theorem repo_zero_rows_notFound_io_distinct_witness :
    repoUpdate none [] wRec = .error .notFound ∧
    repoDelete none [] "x" = .error .notFound ∧
    repoGetByID none [] "x" = .error .notFound ∧
    repoGetByID (some "boom") [] "x" = .error (.db "boom") ∧
    repoUpdate (some "boom") [] wRec = .error (.db "boom") := by
  have h := repo_zero_rows_notFound_io_distinct [] "x" wRec "boom" rfl
  exact ⟨(h.1 (by simp)).1, (h.1 (by simp)).2, h.2.1.mpr (by simp), h.2.2.2.1,
    h.2.2.2.2.1⟩

/-- C8 counterexample: a create whose service name is the single space —
nonempty, whitespace-only, hence empty after trimming — passes the domain
layer's validation and is persisted, so the claim that such a create fails
`InvalidInput` is false. -/
theorem createSubscription_whitespace_name_accepted_cex :
    CreateSubscription 999 "id-w" none [] wsInput = .ok (wsStored, [wsStored]) ∧
    wsInput.serviceName.toList.all Char.isWhitespace = true ∧
    wsInput.serviceName ≠ "" := by
  refine ⟨by decide, by decide, by decide⟩

/-- C8 (amended): a create whose service name is exactly the empty string
fails `InvalidInput` in the domain layer before any repository write — the
result is `InvalidInput` whatever fault the storage layer would have
produced. -/
theorem createSubscription_empty_name_invalid
    (now : Int) (newID : String) (fault : Option String)
    (tbl : List Subscription) (inp : CreateInput) (h : inp.serviceName = "") :
    CreateSubscription now newID fault tbl inp = .error .invalid := by
  unfold CreateSubscription
  rw [if_pos (by simp [h])]

/-- C8 witness: the empty-name create fails `InvalidInput` even with a
driver fault armed, showing the repository was never reached. -/
theorem createSubscription_empty_name_invalid_witness :
    CreateSubscription 999 "id-e" (some "boom") [exRow] emptyNameInput = .error .invalid :=
  createSubscription_empty_name_invalid 999 "id-e" (some "boom") [exRow] emptyNameInput rfl

/-- C2 (code bug): a create that passes every validation check, supplies no
end date, and carries the zero start date (`time.Time{}`) stores
`end_date = zero + 30 days` yet `start_date = now`, because the default end
date is computed from the input start date before the `IsZero` fallback
replaces that start date with `now`.  The stored record violates
`end_date = start_date + 30 days`. -/
theorem createSubscription_zero_start_breaks_default_term :
    CreateSubscription tNow "id-1" none [] zeroStartNoEnd =
      .ok (zeroStartStored, [zeroStartStored]) ∧
    zeroStartStored.endDate = some (addDays 30 0) ∧
    zeroStartStored.startDate = tNow ∧
    zeroStartStored.endDate ≠ some (addDays 30 zeroStartStored.startDate) := by
  refine ⟨by decide, by decide, by decide, by decide⟩

/-- C3 (code bug): a create that passes validation with the zero start date
and an explicit end date below any real clock reading is persisted with
`end_date < start_date`: the ordering check ran against the input start
date, which the `IsZero` fallback then replaced with `now`. -/
theorem createSubscription_zero_start_end_before_start :
    CreateSubscription tNow "id-3" none [] zeroStartWithEnd =
      .ok (zeroStartWithEndStored, [zeroStartWithEndStored]) ∧
    zeroStartWithEndStored.endDate = some 8640000 ∧
    (8640000 : Int) < zeroStartWithEndStored.startDate := by
  refine ⟨by decide, by decide, by decide⟩

/-- C5: a successful update of an existing record keeps its id and
`created_at`, sets `updated_at` to the call's `now` (strictly later than
the previous `updated_at` whenever the clock moved forward), fully replaces
every other field from the input — recomputing the 30-day default end date
when the input omits one — and the updated record is what a subsequent read
of the same id returns. -/
theorem updateSubscription_frame
    (now : Int) (tbl : List Subscription) (id : String) (inp : UpdateInput)
    (ex out : Subscription) (tbl2 : List Subscription)
    (hget : repoGetByID none tbl id = .ok ex)
    (hupd : UpdateSubscription now none none tbl id inp = .ok (out, tbl2))
    (hlt : ex.updatedAt < now) :
    out.id = ex.id ∧ out.createdAt = ex.createdAt ∧
    out.updatedAt = now ∧ ex.updatedAt < out.updatedAt ∧
    out.serviceName = inp.serviceName ∧ out.price = inp.price ∧
    out.userID = inp.userID ∧ out.startDate = inp.startDate ∧
    out.endDate = some (inp.endDate.getD (addDays 30 inp.startDate)) ∧
    repoGetByID none tbl2 id = .ok out := by
  simp only [repoGetByID] at hget
  cases hfind : tbl.find? (fun r => r.id == id) with
  | none => rw [hfind] at hget; exact absurd hget (by simp)
  | some r =>
    rw [hfind] at hget
    have hre : r = ex := by simpa using hget
    subst hre
    have hrid : r.id = id := by
      have h := List.find?_some hfind
      simpa using h
    simp only [UpdateSubscription, repoGetByID, hfind] at hupd
    by_cases hbad :
        (match inp.endDate with
         | some e => decide (e < inp.startDate)
         | none => false) = true
    · rw [if_pos hbad] at hupd; exact absurd hupd (by simp)
    · rw [if_neg hbad] at hupd
      cases hru : repoUpdate none tbl (applyUpdate inp now r) with
      | error e2 => rw [hru] at hupd; exact absurd hupd (by simp)
      | ok t2 =>
        rw [hru] at hupd
        simp only [Except.ok.injEq, Prod.mk.injEq] at hupd
        obtain ⟨hout, htbl⟩ := hupd
        subst hout
        subst htbl
        simp only [repoUpdate] at hru
        by_cases hc : tbl.countP (fun x => x.id == (applyUpdate inp now r).id) = 0
        · rw [if_pos hc] at hru; exact absurd hru (by simp)
        · rw [if_neg hc] at hru
          have ht2 : t2 =
              tbl.map (fun x =>
                if x.id == (applyUpdate inp now r).id
                then applyRowUpdate (applyUpdate inp now r) x else x) := by
            simpa using hru.symm
          refine ⟨rfl, rfl, rfl, hlt, rfl, rfl, rfl, rfl, ?_, ?_⟩
          · cases hend : inp.endDate <;> simp [applyUpdate, hend]
          · have hpres : ∀ a : Subscription,
                ((if a.id == (applyUpdate inp now r).id
                  then applyRowUpdate (applyUpdate inp now r) a else a).id == id) =
                (a.id == id) := by
              intro a
              by_cases h : (a.id == (applyUpdate inp now r).id) = true <;>
                simp [h, applyRowUpdate]
            rw [ht2]
            simp only [repoGetByID]
            rw [find?_map_of_pres _ _ hpres, hfind]
            have hfr :
                (if r.id == (applyUpdate inp now r).id
                 then applyRowUpdate (applyUpdate inp now r) r else r) =
                applyUpdate inp now r := by
              rw [if_pos (by simp [applyUpdate])]
              simp [applyRowUpdate, applyUpdate]
            have hfr2 : (if r.id = (applyUpdate inp now r).id
                 then applyRowUpdate (applyUpdate inp now r) r else r) =
                applyUpdate inp now r := by
              simpa using hfr
            simp [hfr2]

/-- C5 witness: a concrete update of the stored row `exRow` with a fresh
clock reading replaces every mutable field, defaults the end date, keeps
id and `created_at`, and is what the follow-up read returns. -/
theorem updateSubscription_frame_witness :
    exRow.updatedAt < 999 ∧
    (frameOut.id = exRow.id ∧ frameOut.createdAt = exRow.createdAt ∧
     frameOut.updatedAt = 999 ∧ exRow.updatedAt < frameOut.updatedAt ∧
     frameOut.serviceName = frameInp.serviceName ∧ frameOut.price = frameInp.price ∧
     frameOut.userID = frameInp.userID ∧ frameOut.startDate = frameInp.startDate ∧
     frameOut.endDate = some (frameInp.endDate.getD (addDays 30 frameInp.startDate)) ∧
     repoGetByID none [frameOut] "s1" = .ok frameOut) :=
  ⟨by decide,
   updateSubscription_frame 999 [exRow] "s1" frameInp exRow frameOut [frameOut]
     (by decide) (by decide) (by decide)⟩

/-- C6 counterexample: an update carrying a negative price, a syntactically
invalid UUID and an empty service name succeeds against an existing record
and persists it, so the claim that the domain layer re-validates these
rules on update is false. -/
theorem updateSubscription_skips_field_validation_cex :
    UpdateSubscription 999 none none [exRow] "s1" badUpd = .ok (badOut, [badOut]) ∧
    badUpd.price < 0 ∧ badUpd.serviceName = "" ∧
    uuidParseOk badUpd.userID = false ∧ badOut ≠ exRow := by
  refine ⟨by decide, by decide, by decide, by decide, by decide⟩

/-- C6 (amended): the only business rule the domain layer re-validates on
update is the date ordering: given the record exists, the update fails
`InvalidInput` exactly when a supplied end date is before the input start
date; price, user id and service name are not re-checked at this layer. -/
theorem updateSubscription_invalid_iff_end_before_start
    (now : Int) (tbl : List Subscription) (id : String) (inp : UpdateInput)
    (ex : Subscription) (hget : repoGetByID none tbl id = .ok ex) :
    (UpdateSubscription now none none tbl id inp = .error .invalid ↔
      ∃ e, inp.endDate = some e ∧ e < inp.startDate) := by
  simp only [UpdateSubscription, hget]
  by_cases hbad :
      (match inp.endDate with
       | some e => decide (e < inp.startDate)
       | none => false) = true
  · rw [if_pos hbad]
    have hex : ∃ e, inp.endDate = some e ∧ e < inp.startDate := by
      cases hend : inp.endDate with
      | none => rw [hend] at hbad; simp at hbad
      | some e =>
        refine ⟨e, rfl, ?_⟩
        rw [hend] at hbad
        simpa using hbad
    simp [hex]
  · rw [if_neg hbad]
    have hniff : ¬ ∃ e, inp.endDate = some e ∧ e < inp.startDate := by
      rintro ⟨e, he, hlte⟩
      rw [he] at hbad
      simp only [decide_eq_true_eq] at hbad
      exact hbad hlte
    constructor
    · intro hres
      exfalso
      cases hru : repoUpdate none tbl (applyUpdate inp now ex) with
      | error e2 =>
        rw [hru] at hres
        have he2 : e2 = .invalid := by simpa using hres
        exact repoUpdate_ne_invalid none tbl (applyUpdate inp now ex) (by rw [hru, he2])
      | ok t2 => rw [hru] at hres; simp at hres
    · intro h
      exact absurd h hniff

/-- C6 amended-claim witness: against the stored row `exRow`, an update
whose end date precedes its start date is exactly the input the iff marks
as `InvalidInput`. -/
theorem updateSubscription_invalid_iff_end_before_start_witness :
    UpdateSubscription 999 none none [exRow] "s1" pastEndUpd = .error .invalid ↔
      ∃ e, pastEndUpd.endDate = some e ∧ e < pastEndUpd.startDate :=
  updateSubscription_invalid_iff_end_before_start 999 [exRow] "s1" pastEndUpd exRow
    (by decide)
